import Mathlib

/-!
Shallow embedding of the x402 SDK's client request engine (client.py) and
Flask middleware (middleware.py), with theorems settling the frozen claims.

Modelling conventions:
- Python floats used for amounts/times are modelled as rationals; their
  comparisons and defaults are exact, and no claim depends on rounding.
- A header value that Python's float()/int() would accept is modelled by the
  parsed value itself; a value they would reject is the dedicated
  constructor for a malformed string (float()/int() raise ValueError there).
- The requests transport is modelled as a pure stream of per-call results
  (indexed by how many session.request calls were made so far).
- Side effects that the claims talk about (sends, sleeps, executor
  invocations, verifier calls, consumed-set inserts, handler forwarding)
  are recorded in an event trace returned alongside the result.
- Callbacks (on_payment_received / on_payment_failed) and the protected
  handler are modelled as non-raising opaque effects.
-/

namespace X402

/-- A header string as seen by Python float(): either it parses to a number or
float() raises ValueError on it. -/
inductive FloatStr where
  | num (q : ℚ)
  | malformed
deriving DecidableEq

/-- A header string as seen by Python int(). -/
inductive IntStr where
  | int (n : ℤ)
  | malformed
deriving DecidableEq

/-- The response headers the SDK reads: the X-402-* challenge headers
(client.py lines 270-277) and Retry-After (line 307). An absent header is
none. -/
structure RespHeaders where
  amount : Option FloatStr
  currency : Option String
  recipient : Option String
  reference : Option String
  expires : Option IntStr
  network : Option String
  retryAfter : Option IntStr
deriving DecidableEq

/-- PaymentRequirement (types.py): the structured challenge. -/
structure PaymentRequirement where
  amount : ℚ
  currency : String
  recipient : String
  reference : String
  expires : ℤ
  network : Option String
deriving DecidableEq

/-- How X402Client._parse_payment_requirement can fail: an uncaught Python
ValueError from float()/int() on a malformed header, or the explicit
X402Error with code INVALID_402. -/
inductive ParseErr where
  | valueError
  | invalid402
deriving DecidableEq

/-- float(headers.get(key, 0)): an absent header defaults to 0; a non-numeric
header makes float() raise ValueError. -/
def pyFloatField (v : Option FloatStr) : Except ParseErr ℚ :=
  match v with
  | none => .ok 0
  | some (.num q) => .ok q
  | some .malformed => .error .valueError

/-- int(headers.get(key, 0)): an absent header defaults to 0; a non-integer
header makes int() raise ValueError. -/
def pyIntField (v : Option IntStr) : Except ParseErr ℤ :=
  match v with
  | none => .ok 0
  | some (.int n) => .ok n
  | some .malformed => .error .valueError

/-- X402Client._parse_payment_requirement (client.py lines 268-289).
The amount and expires headers are converted eagerly (lines 272, 276), so a
malformed one raises ValueError before the completeness check on line 279;
the check itself uses Python truthiness: a zero amount or empty
recipient/reference rejects with INVALID_402. -/
def parsePaymentRequirement (h : RespHeaders) : Except ParseErr PaymentRequirement :=
  match pyFloatField h.amount with
  | .error e => .error e
  | .ok amount =>
    match pyIntField h.expires with
    | .error e => .error e
    | .ok expires =>
      if amount = 0 ∨ h.recipient.getD "" = "" ∨ h.reference.getD "" = "" then
        .error .invalid402
      else
        .ok ⟨amount, h.currency.getD "SOL", h.recipient.getD "", h.reference.getD "",
             expires, h.network⟩

/-- The error-body fields _handle_api_error reads (client.py lines 296-308). -/
structure ErrBody where
  error : Option String
  message : Option String
  code : Option String
  limit : Option ℤ
deriving DecidableEq

/-- The body of an HTTP response: empty text, a parseable JSON object, or
non-empty unparseable text. -/
inductive RespBody where
  | noText
  | jsonBody (b : ErrBody)
  | unparsable
deriving DecidableEq

structure HttpResp where
  status : ℕ
  headers : RespHeaders
  body : RespBody
deriving DecidableEq

/-- requests.Response.ok: true when the status code is below 400. -/
def HttpResp.ok (r : HttpResp) : Bool := decide (r.status < 400)

/-- The result of one session.request call: a timeout exception, a generic
requests.RequestException (tagged with an id so that wrapping the last error
is expressible), or a response. -/
inductive SendResult where
  | timeout
  | exc (eid : ℕ)
  | resp (r : HttpResp)
deriving DecidableEq

/-- The X402Error hierarchy (errors.py), restricted to the fields the claims
mention. configError models errors.ConfigurationError (code CONFIG_ERROR,
field attribute). -/
inductive X402Err where
  | x402 (message code : String) (status : Option ℕ)
  | maxPaymentExceeded (requested maximum : ℚ)
  | paymentExpired (reference : String) (expiredAt : ℤ)
  | rateLimited (retryAfter limit : ℤ)
  | network (message : String) (original : Option ℕ)
  | configError (field message : String)
deriving DecidableEq

/-- How X402Client.request can terminate abnormally: a propagated X402Error,
an uncaught Python ValueError (float()/int() on a malformed header), a
response.json() decode failure, or a raw transport exception re-raised at
loop exit (raise last_error, client.py line 169). -/
inductive ReqFailure where
  | err (e : X402Err)
  | valueError
  | jsonDecode
  | rawExc (eid : ℕ)
deriving DecidableEq

/-- Is the failure an instance of errors.ConfigurationError? -/
def isConfigErr (f : ReqFailure) : Bool :=
  match f with
  | .err (.configError _ _) => true
  | _ => false

/-- Python s1 or s2 for strings: the left value unless it is falsy (empty). -/
def orTruthy (a : Option String) (b : String) : String :=
  match a with
  | some s => if s = "" then b else s
  | none => b

/-- The body dict after the bare try/except in _handle_api_error: {} when the
body is absent or unparseable. -/
def bodyDict (r : HttpResp) : ErrBody :=
  match r.body with
  | .jsonBody b => b
  | _ => ⟨none, none, none, none⟩

/-- What _handle_api_error raises. -/
inductive ApiRaise where
  | rateLimited (retryAfter limit : ℤ)
  | apiError (message code : String) (status : ℕ)
  | valueErr
deriving DecidableEq

/-- X402Client._handle_api_error (client.py lines 296-310): status 429 raises
RateLimitError with int(Retry-After header, default 60) — a malformed
Retry-After makes int() raise ValueError — and any other status raises
X402Error(message, code, status). -/
def handleApiError (r : HttpResp) : ApiRaise :=
  let b := bodyDict r
  let message := orTruthy b.error (orTruthy b.message "Unknown API error")
  let code := b.code.getD "API_ERROR"
  if r.status = 429 then
    match r.headers.retryAfter with
    | none => .rateLimited 60 (b.limit.getD 0)
    | some (.int n) => .rateLimited n (b.limit.getD 0)
    | some .malformed => .valueErr
  else
    .apiError message code r.status

/-- payment_made dict of a successful paid retry (client.py lines 139-143). -/
structure PaymentMade where
  amount : ℚ
  currency : String
  signature : String
deriving DecidableEq

/-- X402Response (types.py), with data abstracted to the decoded JSON body. -/
structure X402Resp where
  data : Option ErrBody
  status : ℕ
  headers : RespHeaders
  paymentMade : Option PaymentMade
deriving DecidableEq

/-- response.json() if response.text else None (client.py line 150). -/
def successData : RespBody → Option ErrBody
  | .noText => none
  | .jsonBody b => some b
  | .unparsable => none

/-- The client configuration fields the request loop reads. -/
structure ClientCfg where
  maxPaymentPerRequest : ℚ
  retryAttempts : ℕ
  retryDelay : ℚ
deriving DecidableEq

/-- The environment of one X402Client.request call: the transport stream
(successive session.request results), the current time, keypair truthiness,
and the signature _execute_payment would return for a given reference. -/
structure Env where
  transport : ℕ → SendResult
  now : ℚ
  hasKeypair : Bool
  signFor : String → String

/-- actual_max_payment = max_payment or self.config.max_payment_per_request
(client.py line 86). Python or: a supplied 0.0 is falsy and falls back to
the client-wide ceiling. -/
def effectiveMaxPayment (cfg : ClientCfg) (maxPayment : Option ℚ) : ℚ :=
  match maxPayment with
  | none => cfg.maxPaymentPerRequest
  | some v => if v = 0 then cfg.maxPaymentPerRequest else v

/-- Observable side effects of one X402Client.request call. -/
inductive Ev where
  | send (i : ℕ)
  | sleep (d : ℚ)
  | execPay (reference : String)
deriving DecidableEq

/-- Does the trace show the payment executor being invoked? -/
def hasExecPay (t : List Ev) : Bool :=
  t.any fun e => match e with | .execPay _ => true | _ => false

/-- Control outcome of one iteration of the while-loop body: return a value,
raise a propagating exception, catch a RateLimitError (sleep and continue),
or catch a generic RequestException (maybe retry). -/
inductive IterOut where
  | success (r : X402Resp)
  | fatal (f : ReqFailure)
  | rateHit (retryAfter : ℤ)
  | reqExc (eid : ℕ)

/-- One iteration of the try-block of X402Client.request (client.py lines
94-167), given the results of the at most two session.request calls it can
make. Returns the control outcome, the events emitted, and how many sends
were consumed (as the next send index).

Notes kept from the source:
- the 402 branch runs only when auto_sign is set (line 103);
- the ceiling check (line 106) precedes the expiry check (line 109), which
  is strict (time.time() > expires), which precedes the keypair check;
- the paid retry (line 124) is inside the same try, so a RateLimitError or
  RequestException from it is caught by the same handlers;
- retry_response.json() on line 136 is unconditional, so an empty or
  unparseable retry body raises a JSON decode error (modelled terminal);
- a timeout anywhere raises NetworkError("Request timed out") (line 161). -/
def doAttempt (cfg : ClientCfg) (now : ℚ) (hasKeypair : Bool)
    (signFor : String → String) (maxPayment : Option ℚ) (autoSign : Bool)
    (sendIdx : ℕ) (first second : SendResult) : IterOut × List Ev × ℕ :=
  match first with
  | .timeout => (.fatal (.err (.network "Request timed out" none)), [.send sendIdx], sendIdx + 1)
  | .exc eid => (.reqExc eid, [.send sendIdx], sendIdx + 1)
  | .resp r =>
    if r.status = 402 ∧ autoSign = true then
      match parsePaymentRequirement r.headers with
      | .error .valueError => (.fatal .valueError, [.send sendIdx], sendIdx + 1)
      | .error .invalid402 =>
          (.fatal (.err (.x402 "Invalid 402 response: missing required headers" "INVALID_402" none)),
           [.send sendIdx], sendIdx + 1)
      | .ok req =>
        if req.amount > effectiveMaxPayment cfg maxPayment then
          (.fatal (.err (.maxPaymentExceeded req.amount (effectiveMaxPayment cfg maxPayment))),
           [.send sendIdx], sendIdx + 1)
        else if now > (req.expires : ℚ) then
          (.fatal (.err (.paymentExpired req.reference req.expires)), [.send sendIdx], sendIdx + 1)
        else if hasKeypair = false then
          (.fatal (.err (.x402 "Keypair required for automatic payments" "NO_KEYPAIR" none)),
           [.send sendIdx], sendIdx + 1)
        else
          let sig := signFor req.reference
          let evs : List Ev := [.send sendIdx, .execPay req.reference, .send (sendIdx + 1)]
          match second with
          | .timeout => (.fatal (.err (.network "Request timed out" none)), evs, sendIdx + 2)
          | .exc eid => (.reqExc eid, evs, sendIdx + 2)
          | .resp r2 =>
            if r2.ok = true then
              match r2.body with
              | .jsonBody j =>
                  (.success ⟨some j, r2.status, r2.headers, some ⟨req.amount, req.currency, sig⟩⟩,
                   evs, sendIdx + 2)
              | _ => (.fatal .jsonDecode, evs, sendIdx + 2)
            else
              match handleApiError r2 with
              | .rateLimited ra _ => (.rateHit ra, evs, sendIdx + 2)
              | .apiError m c s => (.fatal (.err (.x402 m c (some s))), evs, sendIdx + 2)
              | .valueErr => (.fatal .valueError, evs, sendIdx + 2)
    else
      if r.ok = true then
        match r.body with
        | .unparsable => (.fatal .jsonDecode, [.send sendIdx], sendIdx + 1)
        | b => (.success ⟨successData b, r.status, r.headers, none⟩, [.send sendIdx], sendIdx + 1)
      else
        match handleApiError r with
        | .rateLimited ra _ => (.rateHit ra, [.send sendIdx], sendIdx + 1)
        | .apiError m c s => (.fatal (.err (.x402 m c (some s))), [.send sendIdx], sendIdx + 1)
        | .valueErr => (.fatal .valueError, [.send sendIdx], sendIdx + 1)

/-- raise last_error or NetworkError("Max retry attempts exceeded")
(client.py line 169): the raw last transport exception when one was
recorded, else the generic NetworkError. -/
def exhaustedFailure (lastErr : Option ℕ) : ReqFailure :=
  match lastErr with
  | some eid => .rawExc eid
  | none => .err (.network "Max retry attempts exceeded" none)

/-- The while-loop of X402Client.request (client.py lines 91-169).
remaining is retry_attempts minus the attempts already made; attemptsDone is
that count, used for the linear backoff retry_delay * attempts (line 165);
sendIdx numbers the session.request calls; lastErr is last_error.
A caught RateLimitError sleeps retry_after and continues (lines 155-157),
consuming a loop slot; a caught generic RequestException retries with
backoff while attempts remain, else raises NetworkError wrapping it
(lines 162-167). -/
def runLoop (cfg : ClientCfg) (env : Env) (maxPayment : Option ℚ) (autoSign : Bool) :
    ℕ → ℕ → ℕ → Option ℕ → Except ReqFailure X402Resp × List Ev
  | 0, _, _, lastErr => (.error (exhaustedFailure lastErr), [])
  | remaining + 1, attemptsDone, sendIdx, lastErr =>
    match doAttempt cfg env.now env.hasKeypair env.signFor maxPayment autoSign sendIdx
        (env.transport sendIdx) (env.transport (sendIdx + 1)) with
    | (.success r, evs, _) => (.ok r, evs)
    | (.fatal f, evs, _) => (.error f, evs)
    | (.rateHit ra, evs, idx2) =>
      let rest := runLoop cfg env maxPayment autoSign remaining (attemptsDone + 1) idx2 lastErr
      (rest.1, evs ++ Ev.sleep (ra : ℚ) :: rest.2)
    | (.reqExc eid, evs, idx2) =>
      if remaining = 0 then
        (.error (.err (.network "Network request failed" (some eid))), evs)
      else
        let rest := runLoop cfg env maxPayment autoSign remaining (attemptsDone + 1) idx2 (some eid)
        (rest.1, evs ++ Ev.sleep (cfg.retryDelay * ((attemptsDone + 1 : ℕ) : ℚ)) :: rest.2)

/-- X402Client.request (client.py lines 69-169), as result plus event trace. -/
def request (cfg : ClientCfg) (env : Env) (maxPayment : Option ℚ) (autoSign : Bool) :
    Except ReqFailure X402Resp × List Ev :=
  runLoop cfg env maxPayment autoSign cfg.retryAttempts 0 0 none

/- ===== middleware (middleware.py) ===== -/

/-- Middleware-instance configuration the protected path reads. -/
structure MwCfg where
  recipient : String
  verifyPayments : Bool
deriving DecidableEq

/-- Per-endpoint decorator arguments. -/
structure EndpointCfg where
  amount : ℚ
  currency : String
  recipient : Option String
  expiresIn : ℤ
deriving DecidableEq

/-- actual_recipient = recipient or self.recipient (middleware.py line 54),
with Python truthiness: an empty per-endpoint recipient falls back. -/
def actualRecipient (mw : MwCfg) (ep : EndpointCfg) : String :=
  match ep.recipient with
  | none => mw.recipient
  | some s => if s = "" then mw.recipient else s

/-- VerifyRequest (types.py), the fields the middleware sends. -/
structure VerifyReq where
  signature : String
  reference : String
  expectedAmount : ℚ
  expectedRecipient : String
deriving DecidableEq

/-- The transaction fields the middleware reads from a verification result. -/
structure TxDetails where
  amount : ℚ
  currency : String
  sender : String
deriving DecidableEq

/-- The verification capability's behaviour on one call: a VerifyResponse, or
an exception from the verify call. -/
inductive VerifyOutcome where
  | ok (verified : Bool) (tx : TxDetails)
  | raises
deriving DecidableEq

/-- PaymentInfo (types.py), without the wall-clock verified_at field. -/
structure PaymentInfo where
  signature : String
  reference : String
  amount : ℚ
  currency : String
  sender : Option String
deriving DecidableEq

/-- Python truthiness of headers.get(...): present and non-empty. -/
def truthyOpt (s : Option String) : Bool :=
  match s with
  | none => false
  | some v => v ≠ ""

/-- Observable side effects of one protected invocation. -/
inductive MwEv where
  | verifyCall (signature reference : String)
  | markConsumed (reference : String)
  | invokeHandler
deriving DecidableEq

/-- Does the trace show the verification capability being called? -/
def callsVerifier (t : List MwEv) : Bool :=
  t.any fun e => match e with | .verifyCall _ _ => true | _ => false

/-- The mirrored X-402-* headers of a challenge response issued by
X402Middleware.require_payment (middleware.py lines 135-140): str(amount),
currency, actual_recipient, reference, str(expires); no Retry-After and no
X-402-Network header. str of a float/int round-trips, so the encoded header
parses back to the same value. -/
def challengeRespHeaders (amount : ℚ) (currency recipient reference : String)
    (expires : ℤ) : RespHeaders :=
  ⟨some (.num amount), some currency, some recipient, some reference,
   some (.int expires), none, none⟩

/-- Outcome of one invocation of a handler wrapped by
X402Middleware.require_payment. Every non-forwarded outcome is an HTTP 402
response with the code named by the constructor. -/
inductive MwOutcome where
  | handled (info : PaymentInfo)
  | replay
  | verifyFailed
  | verifyError
  | challenge (headers : RespHeaders)
deriving DecidableEq

/-- The HTTP status the middleware itself attaches to an outcome: every
rejection and challenge is 402; a forwarded request's status is whatever the
protected handler returns (none here). -/
def mwOwnStatus : MwOutcome → Option ℕ
  | .handled _ => none
  | _ => some 402

/-- X402Middleware.require_payment's wrapped handler (middleware.py lines
50-142): given the consumed-reference set, the two payment headers, a fresh
reference and the current time, produce the outcome, the updated set, and
the event trace. The replay check (line 57) runs before anything else on the
proof-bearing path; on verified success the reference is added (line 81)
before the handler call (line 97); verified=false and verifier exceptions
leave the set unchanged. In verify_payments=false mode the reference is
added and the handler invoked without any verifier call (lines 107-116). -/
def requirePayment (mw : MwCfg) (ep : EndpointCfg)
    (verifier : VerifyReq → VerifyOutcome) (used : Finset String)
    (sig pref : Option String) (freshRef : String) (now : ℤ) :
    MwOutcome × Finset String × List MwEv :=
  if truthyOpt sig = true ∧ truthyOpt pref = true then
    let s := sig.getD ""
    let r := pref.getD ""
    if r ∈ used then
      (.replay, used, [])
    else if mw.verifyPayments = true then
      match verifier ⟨s, r, ep.amount, actualRecipient mw ep⟩ with
      | .raises => (.verifyError, used, [.verifyCall s r])
      | .ok verified tx =>
        if verified = false then
          (.verifyFailed, used, [.verifyCall s r])
        else
          (.handled ⟨s, r, tx.amount, tx.currency, some tx.sender⟩, insert r used,
           [.verifyCall s r, .markConsumed r, .invokeHandler])
    else
      (.handled ⟨s, r, ep.amount, ep.currency, none⟩, insert r used,
       [.markConsumed r, .invokeHandler])
  else
    (.challenge (challengeRespHeaders ep.amount ep.currency (actualRecipient mw ep)
        freshRef (now + ep.expiresIn)),
     used, [])

/-- Outcome of the standalone module-level require_payment decorator. -/
inductive SaOutcome where
  | passthrough
  | challenge (headers : RespHeaders)
deriving DecidableEq

/-- The standalone module-level require_payment decorator (middleware.py
lines 163-202): any truthy X-402-Payment-Signature header admits the request
outright; it never reads the payment reference, never touches the consumed
set, and never verifies. Its challenge headers (lines 193-197) omit the
X-402-Recipient header. -/
def standaloneRequirePayment (amount : ℚ) (currency : String)
    (recipient : Option String) (sig pref : Option String) (used : Finset String)
    (freshRef : String) (now expiresIn : ℤ) :
    SaOutcome × Finset String × List MwEv :=
  if truthyOpt sig = true then
    (.passthrough, used, [.invokeHandler])
  else
    (.challenge ⟨some (.num amount), some currency, none, some freshRef,
        some (.int (now + expiresIn)), none, none⟩,
     used, [])

/-- Trace of k consecutive failed generic-transport attempts, starting at
send index idx after a0 earlier attempts: each failed attempt's send is
followed by its backoff sleep retryDelay * attemptNumber. -/
def excTraceFrom (d : ℚ) : ℕ → ℕ → ℕ → List Ev
  | 0, _, _ => []
  | k + 1, idx, a0 =>
      .send idx :: .sleep (d * ((a0 + 1 : ℕ) : ℚ)) :: excTraceFrom d k (idx + 1) (a0 + 1)

/-- C9: for every valid challenge (positive amount, non-empty recipient and
reference, integer expiry), encoding it into the protocol headers as the
server middleware does and then parsing those headers with the client parser
yields back the original amount, recipient, reference, expiry and currency. -/
theorem c9_roundtrip (a : ℚ) (c rcp rf : String) (e : ℤ)
    (ha : 0 < a) (hr : rcp ≠ "") (hf : rf ≠ "") :
    parsePaymentRequirement (challengeRespHeaders a c rcp rf e) =
      Except.ok ⟨a, c, rcp, rf, e, none⟩ := by
  simp [parsePaymentRequirement, challengeRespHeaders, pyFloatField, pyIntField,
    ha.ne', hr, hf]

/-- Witness for C9 at the concrete challenge of the spec scenario. -/
theorem c9_witness :
    parsePaymentRequirement (challengeRespHeaders (1/20) "SOL" "R1" "pay_abc" 600) =
      Except.ok ⟨1/20, "SOL", "R1", "pay_abc", 600, none⟩ :=
  c9_roundtrip (1/20) "SOL" "R1" "pay_abc" 600 (by norm_num) (by decide) (by decide)

/-- C5 counterexample: the claim says the parser succeeds exactly when the
amount is numeric and strictly positive, and that every other input fails
with the InvalidChallenge classification. The code disagrees three ways:
a numeric negative amount is accepted (Python checks only truthiness, line
279), a non-numeric amount header makes float() raise an uncaught ValueError
(line 272), and a non-numeric expiry header likewise raises ValueError (line
276) even when every required field is present. -/
theorem c5_counterexample :
    parsePaymentRequirement
        ⟨some (.num (-1)), none, some "R1", some "ref1", some (.int 100), none, none⟩ =
      Except.ok ⟨-1, "SOL", "R1", "ref1", 100, none⟩
    ∧ parsePaymentRequirement
        ⟨some .malformed, none, some "R1", some "ref1", some (.int 100), none, none⟩ =
      Except.error .valueError
    ∧ parsePaymentRequirement
        ⟨some (.num 1), none, some "R1", some "ref1", some .malformed, none, none⟩ =
      Except.error .valueError := by
  refine ⟨?_, ?_, ?_⟩ <;> rfl

/-- A header option is present and non-empty exactly when its Python default
read (headers.get(key, empty)) is truthy. -/
theorem exists_some_ne_iff_getD (o : Option String) :
    (∃ s, o = some s ∧ s ≠ "") ↔ ¬ o.getD "" = "" := by
  cases o <;> simp

/-- C5 amended: the parser returns a PaymentRequirement exactly when the
amount header parses to a nonzero number (negative amounts included), the
recipient and reference headers are present and non-empty, and the expiry
header is absent or integer-parseable; a zero or absent amount or an empty
recipient/reference fails with InvalidChallenge; a non-numeric amount or
expiry header raises an uncaught ValueError instead of InvalidChallenge.
When it succeeds, currency defaults to SOL if absent and expiry defaults to
0 if absent, and the whole requirement is parsed atomically. -/
theorem c5_parse_characterization (h : RespHeaders) :
    ((∃ req, parsePaymentRequirement h = Except.ok req) ↔
       (∃ q, h.amount = some (.num q) ∧ q ≠ 0)
       ∧ (∃ s, h.recipient = some s ∧ s ≠ "")
       ∧ (∃ s, h.reference = some s ∧ s ≠ "")
       ∧ (h.expires = none ∨ ∃ n, h.expires = some (.int n)))
    ∧ (∀ req, parsePaymentRequirement h = Except.ok req →
         h.amount = some (.num req.amount)
         ∧ req.currency = h.currency.getD "SOL"
         ∧ h.recipient = some req.recipient
         ∧ h.reference = some req.reference
         ∧ pyIntField h.expires = Except.ok req.expires
         ∧ req.network = h.network)
    ∧ (h.amount = some .malformed →
         parsePaymentRequirement h = Except.error .valueError)
    ∧ ((h.amount ≠ some .malformed ∧ h.expires ≠ some .malformed ∧
         ¬ ((∃ q, h.amount = some (.num q) ∧ q ≠ 0)
            ∧ (∃ s, h.recipient = some s ∧ s ≠ "")
            ∧ (∃ s, h.reference = some s ∧ s ≠ ""))) →
       parsePaymentRequirement h = Except.error .invalid402) := by
  obtain ⟨am, cu, rc, rf, ex, nw, ra⟩ := h
  rcases am with _ | am
  · refine ⟨?_, ?_, ?_, ?_⟩
    · rcases ex with _ | ex
      · simp [parsePaymentRequirement, pyFloatField, pyIntField]
      · rcases ex with n | _ <;>
          simp [parsePaymentRequirement, pyFloatField, pyIntField]
    · intro req hreq
      rcases ex with _ | ex
      · simp [parsePaymentRequirement, pyFloatField, pyIntField] at hreq
      · rcases ex with n | _ <;>
          simp [parsePaymentRequirement, pyFloatField, pyIntField] at hreq
    · intro ham; cases ham
    · rintro ⟨-, hex, -⟩
      rcases ex with _ | ex
      · simp [parsePaymentRequirement, pyFloatField, pyIntField]
      · rcases ex with n | _
        · simp [parsePaymentRequirement, pyFloatField, pyIntField]
        · exact absurd rfl hex
  rcases am with q | _
  · -- numeric amount header
    rcases ex with _ | ex
    · -- expiry absent: defaults to 0
      refine ⟨?_, ?_, ?_, ?_⟩
      · rw [exists_some_ne_iff_getD rc, exists_some_ne_iff_getD rf]
        simp only [parsePaymentRequirement, pyFloatField, pyIntField]
        split
        · next hcond =>
          simp only [Option.some.injEq, FloatStr.num.injEq, exists_eq_left']
          constructor
          · rintro ⟨req, hreq⟩; cases hreq
          · rintro ⟨h1, h2, h3, -⟩
            rcases hcond with hc | hc | hc <;> simp_all
        · next hcond =>
          push_neg at hcond
          simp only [Except.ok.injEq, exists_eq', true_iff, Option.some.injEq,
            FloatStr.num.injEq, exists_eq_left']
          exact ⟨hcond.1, hcond.2.1, hcond.2.2, by simp⟩
      · intro req hreq
        simp only [parsePaymentRequirement, pyFloatField, pyIntField] at hreq
        split at hreq
        · cases hreq
        · next hcond =>
          push_neg at hcond
          obtain rfl := (Except.ok.inj hreq).symm
          refine ⟨rfl, rfl, ?_, ?_, rfl, rfl⟩
          · rcases rc with _ | s
            · exact absurd rfl hcond.2.1
            · rfl
          · rcases rf with _ | s
            · exact absurd rfl hcond.2.2
            · rfl
      · intro ham; cases ham
      · rintro ⟨-, -, hbad⟩
        rw [exists_some_ne_iff_getD rc, exists_some_ne_iff_getD rf] at hbad
        simp only [Option.some.injEq, FloatStr.num.injEq, exists_eq_left'] at hbad
        simp only [parsePaymentRequirement, pyFloatField, pyIntField]
        rw [if_pos]
        by_contra hc
        push_neg at hc
        exact hbad ⟨hc.1, hc.2.1, hc.2.2⟩
    · rcases ex with n | _
      · -- integer expiry header
        refine ⟨?_, ?_, ?_, ?_⟩
        · rw [exists_some_ne_iff_getD rc, exists_some_ne_iff_getD rf]
          simp only [parsePaymentRequirement, pyFloatField, pyIntField]
          split
          · next hcond =>
            simp only [Option.some.injEq, FloatStr.num.injEq, exists_eq_left]
            constructor
            · rintro ⟨req, hreq⟩; cases hreq
            · rintro ⟨h1, h2, h3, -⟩
              rcases hcond with hc | hc | hc <;> simp_all
          · next hcond =>
            push_neg at hcond
            simp only [Except.ok.injEq, exists_eq', true_iff, Option.some.injEq,
              FloatStr.num.injEq, exists_eq_left']
            exact ⟨hcond.1, hcond.2.1, hcond.2.2, Or.inr ⟨n, rfl⟩⟩
        · intro req hreq
          simp only [parsePaymentRequirement, pyFloatField, pyIntField] at hreq
          split at hreq
          · cases hreq
          · next hcond =>
            push_neg at hcond
            obtain rfl := (Except.ok.inj hreq).symm
            refine ⟨rfl, rfl, ?_, ?_, rfl, rfl⟩
            · rcases rc with _ | s
              · exact absurd rfl hcond.2.1
              · rfl
            · rcases rf with _ | s
              · exact absurd rfl hcond.2.2
              · rfl
        · intro ham; cases ham
        · rintro ⟨-, -, hbad⟩
          rw [exists_some_ne_iff_getD rc, exists_some_ne_iff_getD rf] at hbad
          simp only [Option.some.injEq, FloatStr.num.injEq, exists_eq_left'] at hbad
          simp only [parsePaymentRequirement, pyFloatField, pyIntField]
          rw [if_pos]
          by_contra hc
          push_neg at hc
          exact hbad ⟨hc.1, hc.2.1, hc.2.2⟩
      · -- malformed expiry header: ValueError
        refine ⟨?_, ?_, ?_, ?_⟩
        · simp [parsePaymentRequirement, pyFloatField, pyIntField]
        · intro req hreq
          simp [parsePaymentRequirement, pyFloatField, pyIntField] at hreq
        · intro ham; cases ham
        · rintro ⟨-, hex, -⟩; exact absurd rfl hex
  · -- malformed amount header: ValueError
    refine ⟨?_, ?_, ?_, ?_⟩
    · simp [parsePaymentRequirement, pyFloatField, pyIntField]
    · intro req hreq
      simp [parsePaymentRequirement, pyFloatField, pyIntField] at hreq
    · intro _; rfl
    · rintro ⟨ham, -, -⟩; exact absurd rfl ham

/-- Witness for C5 at concrete headers: a complete, nonzero-amount header set
parses, and dropping the recipient makes the same header set fail with
INVALID_402. -/
theorem c5_witness :
    (⟨some (.num (1/20)), none, some "R1", some "ref1", some (.int 100), none, none⟩
        : RespHeaders).amount = some (.num (1/20))
    ∧ (∃ req, parsePaymentRequirement
        ⟨some (.num (1/20)), none, some "R1", some "ref1", some (.int 100), none, none⟩ =
          Except.ok req)
    ∧ parsePaymentRequirement
        ⟨some (.num (1/20)), none, none, some "ref1", some (.int 100), none, none⟩ =
      Except.error .invalid402 := by
  refine ⟨rfl, ?_, ?_⟩
  · exact (c5_parse_characterization
      ⟨some (.num (1/20)), none, some "R1", some "ref1", some (.int 100), none, none⟩).1.mpr
      ⟨⟨1/20, rfl, by norm_num⟩, ⟨"R1", rfl, by decide⟩, ⟨"ref1", rfl, by decide⟩,
       Or.inr ⟨100, rfl⟩⟩
  · exact (c5_parse_characterization
      ⟨some (.num (1/20)), none, none, some "ref1", some (.int 100), none, none⟩).2.2.2
      ⟨by decide, by decide, by
        rintro ⟨-, ⟨s, hs, -⟩, -⟩
        exact Option.noConfusion hs⟩

/-- If a wrapped invocation forwarded to the handler, the proof reference was
truthy and the updated consumed set is the old one with that reference
inserted (both the verifying and the non-verifying admission branch insert
it). -/
theorem requirePayment_handled_inserts (mw : MwCfg) (ep : EndpointCfg)
    (verifier : VerifyReq → VerifyOutcome) (used : Finset String)
    (sig pref : Option String) (freshRef : String) (now : ℤ)
    (info : PaymentInfo) (used2 : Finset String) (tr : List MwEv)
    (h : requirePayment mw ep verifier used sig pref freshRef now =
      (.handled info, used2, tr)) :
    truthyOpt pref = true ∧ used2 = insert (pref.getD "") used := by
  unfold requirePayment at h
  by_cases hc : truthyOpt sig = true ∧ truthyOpt pref = true
  · rw [if_pos hc] at h
    by_cases hin : pref.getD "" ∈ used
    · rw [if_pos hin] at h
      simp at h
    · rw [if_neg hin] at h
      by_cases hv : mw.verifyPayments = true
      · rw [if_pos hv] at h
        cases hver : verifier ⟨sig.getD "", pref.getD "", ep.amount, actualRecipient mw ep⟩ with
        | raises =>
          rw [hver] at h
          simp at h
        | ok verified tx =>
          rw [hver] at h
          cases verified with
          | false => simp at h
          | true =>
            simp only [Bool.true_eq_false, if_false, Prod.mk.injEq] at h
            exact ⟨hc.2, h.2.1.symm⟩
      · rw [if_neg hv] at h
        simp only [Prod.mk.injEq] at h
        exact ⟨hc.2, h.2.1.symm⟩
  · rw [if_neg hc] at h
    simp at h

/-- C1: a protected invocation carrying both a payment signature and a
payment reference whose reference is already consumed is rejected
immediately as REPLAY_ATTACK with HTTP 402, with the consumed set unchanged
and an empty effect trace — in particular the verification capability is
never invoked, whatever the signature. Consequently, any invocation that was
forwarded to the handler leaves the set containing its reference, so a
second attempt with that reference (any truthy signature) yields the replay
rejection. -/
theorem c1_replay_guard (mw : MwCfg) (ep : EndpointCfg)
    (verifier : VerifyReq → VerifyOutcome) :
    (∀ (used : Finset String) (sig pref : Option String) (freshRef : String) (now : ℤ),
       truthyOpt sig = true → truthyOpt pref = true → pref.getD "" ∈ used →
       requirePayment mw ep verifier used sig pref freshRef now = (.replay, used, [])
       ∧ mwOwnStatus .replay = some 402
       ∧ callsVerifier ([] : List MwEv) = false)
    ∧ (∀ (used : Finset String) (sig pref : Option String) (freshRef : String) (now : ℤ)
         (info : PaymentInfo) (used2 : Finset String) (tr : List MwEv),
       requirePayment mw ep verifier used sig pref freshRef now =
         (.handled info, used2, tr) →
       ∀ (sig2 : Option String) (freshRef2 : String) (now2 : ℤ),
         truthyOpt sig2 = true →
         requirePayment mw ep verifier used2 sig2 pref freshRef2 now2 =
           (.replay, used2, [])) := by
  constructor
  · intro used sig pref freshRef now hs hp hin
    refine ⟨?_, rfl, rfl⟩
    unfold requirePayment
    rw [if_pos ⟨hs, hp⟩, if_pos hin]
  · intro used sig pref freshRef now info used2 tr h sig2 freshRef2 now2 hs2
    obtain ⟨hpref, hins⟩ := requirePayment_handled_inserts mw ep verifier used
      sig pref freshRef now info used2 tr h
    have hin2 : pref.getD "" ∈ used2 := by
      rw [hins]
      exact Finset.mem_insert_self _ _
    unfold requirePayment
    rw [if_pos ⟨hs2, hpref⟩, if_pos hin2]

/-- Witness for C1: with the verifier accepting, a first admission of
reference ref1 succeeds and a second attempt with ref1 (different signature)
is rejected as replay. -/
theorem c1_witness :
    requirePayment ⟨"R1", true⟩ ⟨1/20, "SOL", none, 600⟩
        (fun _ => .ok true ⟨1/20, "SOL", "S1"⟩)
        (insert "ref1" (∅ : Finset String)) (some "sigB") (some "ref1") "f" 0 =
      (.replay, insert "ref1" (∅ : Finset String), [])
    ∧ mwOwnStatus .replay = some 402 := by
  have h := (c1_replay_guard ⟨"R1", true⟩ ⟨1/20, "SOL", none, 600⟩
      (fun _ => .ok true ⟨1/20, "SOL", "S1"⟩)).1
    (insert "ref1" (∅ : Finset String)) (some "sigB") (some "ref1") "f" 0
    (by decide) (by decide) (Finset.mem_insert_self _ _)
  exact ⟨h.1, h.2.1⟩

/-- C2: in the default verifying mode, on a proof-bearing request whose
reference is not yet consumed: if the verifier confirms the payment, the
reference is inserted into the consumed set and the trace shows the mark
strictly before the handler invocation (mark-before-forward); if the
verifier returns verified=false, the outcome is the VERIFICATION_FAILED
402 rejection and the consumed set is unchanged. -/
theorem c2_mark_before_forward (mw : MwCfg) (ep : EndpointCfg)
    (verifier : VerifyReq → VerifyOutcome) (used : Finset String)
    (s r freshRef : String) (now : ℤ)
    (hmode : mw.verifyPayments = true) (hs : s ≠ "") (hr : r ≠ "")
    (hnew : r ∉ used) :
    (∀ tx, verifier ⟨s, r, ep.amount, actualRecipient mw ep⟩ = .ok true tx →
       requirePayment mw ep verifier used (some s) (some r) freshRef now =
         (.handled ⟨s, r, tx.amount, tx.currency, some tx.sender⟩, insert r used,
          [.verifyCall s r, .markConsumed r, .invokeHandler]))
    ∧ (∀ tx, verifier ⟨s, r, ep.amount, actualRecipient mw ep⟩ = .ok false tx →
       requirePayment mw ep verifier used (some s) (some r) freshRef now =
         (.verifyFailed, used, [.verifyCall s r])) := by
  constructor
  · intro tx hver
    unfold requirePayment
    rw [if_pos ⟨by simp [truthyOpt, hs], by simp [truthyOpt, hr]⟩]
    simp only [Option.getD_some]
    rw [if_neg hnew, if_pos hmode, hver]
    rfl
  · intro tx hver
    unfold requirePayment
    rw [if_pos ⟨by simp [truthyOpt, hs], by simp [truthyOpt, hr]⟩]
    simp only [Option.getD_some]
    rw [if_neg hnew, if_pos hmode, hver]
    rfl

/-- Witness for C2 at a concrete verifier: a confirming verifier leads to
admission with the reference marked before the handler runs, and a refusing
verifier leaves the set unchanged. -/
theorem c2_witness :
    requirePayment ⟨"R1", true⟩ ⟨1/20, "SOL", none, 600⟩
        (fun _ => .ok true ⟨1/20, "SOL", "S1"⟩) (∅ : Finset String)
        (some "sigA") (some "ref1") "f" 0 =
      (.handled ⟨"sigA", "ref1", 1/20, "SOL", some "S1"⟩,
       insert "ref1" (∅ : Finset String),
       [.verifyCall "sigA" "ref1", .markConsumed "ref1", .invokeHandler])
    ∧ requirePayment ⟨"R1", true⟩ ⟨1/20, "SOL", none, 600⟩
        (fun _ => .ok false ⟨1/20, "SOL", "S1"⟩) (∅ : Finset String)
        (some "sigA") (some "ref1") "f" 0 =
      (.verifyFailed, (∅ : Finset String), [.verifyCall "sigA" "ref1"]) := by
  constructor
  · exact (c2_mark_before_forward ⟨"R1", true⟩ ⟨1/20, "SOL", none, 600⟩
      (fun _ => .ok true ⟨1/20, "SOL", "S1"⟩) ∅ "sigA" "ref1" "f" 0
      rfl (by decide) (by decide) (Finset.not_mem_empty _)).1
      ⟨1/20, "SOL", "S1"⟩ rfl
  · exact (c2_mark_before_forward ⟨"R1", true⟩ ⟨1/20, "SOL", none, 600⟩
      (fun _ => .ok false ⟨1/20, "SOL", "S1"⟩) ∅ "sigA" "ref1" "f" 0
      rfl (by decide) (by decide) (Finset.not_mem_empty _)).2
      ⟨1/20, "SOL", "S1"⟩ rfl

/-- C10: the standalone module-level require_payment decorator admits every
request with a truthy payment-signature header unconditionally: it forwards
to the handler, leaves the consumed set untouched, performs no verifier call
and no mark, and its behaviour is independent of the payment-reference
header; only a request whose signature header is absent or empty receives
the 402 challenge. -/
theorem c10_standalone_passthrough (amount : ℚ) (currency : String)
    (recipient : Option String) (used : Finset String) (freshRef : String)
    (now expiresIn : ℤ) :
    (∀ s, s ≠ "" → ∀ pref,
       standaloneRequirePayment amount currency recipient (some s) pref used
           freshRef now expiresIn =
         (.passthrough, used, [.invokeHandler]))
    ∧ (∀ sig pref pref',
       standaloneRequirePayment amount currency recipient sig pref used
           freshRef now expiresIn =
         standaloneRequirePayment amount currency recipient sig pref' used
           freshRef now expiresIn)
    ∧ (∀ sig pref, truthyOpt sig = false →
       standaloneRequirePayment amount currency recipient sig pref used
           freshRef now expiresIn =
         (.challenge ⟨some (.num amount), some currency, none, some freshRef,
             some (.int (now + expiresIn)), none, none⟩,
          used, []))
    ∧ callsVerifier [MwEv.invokeHandler] = false := by
  refine ⟨?_, ?_, ?_, rfl⟩
  · intro s hs pref
    unfold standaloneRequirePayment
    rw [if_pos (by simp [truthyOpt, hs])]
  · intro sig pref pref'
    rfl
  · intro sig pref hfalsy
    unfold standaloneRequirePayment
    rw [if_neg (by simp [hfalsy])]

/-- Witness for C10: a fabricated signature value is admitted outright with
the consumed set untouched, and a signature-free request is challenged. -/
theorem c10_witness :
    standaloneRequirePayment (1/20) "SOL" none (some "forged") (some "ref1")
        (insert "ref1" (∅ : Finset String)) "f" 100 600 =
      (.passthrough, insert "ref1" (∅ : Finset String), [.invokeHandler])
    ∧ standaloneRequirePayment (1/20) "SOL" none none none
        (∅ : Finset String) "f" 100 600 =
      (.challenge ⟨some (.num (1/20)), some "SOL", none, some "f",
          some (.int 700), none, none⟩,
       (∅ : Finset String), []) := by
  constructor
  · exact (c10_standalone_passthrough (1/20) "SOL" none
      (insert "ref1" (∅ : Finset String)) "f" 100 600).1 "forged" (by decide)
      (some "ref1")
  · have h := (c10_standalone_passthrough (1/20) "SOL" none
      (∅ : Finset String) "f" 100 600).2.2.1 none none rfl
    simpa using h

/-- If the first iteration of the request loop raises a propagating
exception, the whole call fails with it (at least one attempt is allowed). -/
theorem request_first_fatal (cfg : ClientCfg) (env : Env) (mp : Option ℚ)
    (autoSign : Bool) (f : ReqFailure) (evs : List Ev) (k : ℕ)
    (hra : 1 ≤ cfg.retryAttempts)
    (hD : doAttempt cfg env.now env.hasKeypair env.signFor mp autoSign 0
        (env.transport 0) (env.transport 1) = (.fatal f, evs, k)) :
    request cfg env mp autoSign = (.error f, evs) := by
  obtain ⟨n, hn⟩ : ∃ n, cfg.retryAttempts = n + 1 :=
    ⟨cfg.retryAttempts - 1, (Nat.succ_pred_eq_of_pos hra).symm⟩
  unfold request
  rw [hn]
  simp only [runLoop, hD]

/-- C3 counterexample: the claim says any challenge with expiry ≤ now fails
with PaymentExpired and never invokes the executor. The code's check is
strict (time.time() > expires, client.py line 109), so a challenge expiring
exactly at the current time proceeds to the executor and is paid; and the
ceiling check runs first (line 106), so an expired challenge that also
exceeds the ceiling fails with MaxPaymentExceeded instead. -/
theorem c3_counterexample :
    request ⟨10, 3, 1⟩
        ⟨fun i => if i = 0
            then .resp ⟨402, ⟨some (.num 5), some "SOL", some "R1", some "payX",
                some (.int 1000), none, none⟩, .noText⟩
            else .resp ⟨200, ⟨none, none, none, none, none, none, none⟩,
                .jsonBody ⟨none, none, none, none⟩⟩,
          1000, true, fun _ => "sig0"⟩ none true =
      (.ok ⟨some ⟨none, none, none, none⟩, 200, ⟨none, none, none, none, none, none, none⟩,
          some ⟨5, "SOL", "sig0"⟩⟩,
       [.send 0, .execPay "payX", .send 1])
    ∧ request ⟨10, 3, 1⟩
        ⟨fun _ => .resp ⟨402, ⟨some (.num 20), some "SOL", some "R1", some "payX",
            some (.int 500), none, none⟩, .noText⟩,
          1000, true, fun _ => "sig0"⟩ none true =
      (.error (.err (.maxPaymentExceeded 20 10)), [.send 0]) := by
  constructor <;> rfl

/-- C3 amended: a challenge response whose parsed requirement has expiry
strictly earlier than the current time AND amount within the effective
ceiling fails with PaymentExpired (carrying the reference and the expiry
time) without invoking the executor; a challenge expiring exactly at the
current time is not treated as expired, and the ceiling check precedes the
expiry check. -/
theorem c3_expiry_check (cfg : ClientCfg) (env : Env) (mp : Option ℚ)
    (r : HttpResp) (req : PaymentRequirement)
    (hra : 1 ≤ cfg.retryAttempts)
    (h0 : env.transport 0 = .resp r) (h402 : r.status = 402)
    (hp : parsePaymentRequirement r.headers = .ok req)
    (hamt : ¬ req.amount > effectiveMaxPayment cfg mp)
    (hexp : (req.expires : ℚ) < env.now) :
    request cfg env mp true =
      (.error (.err (.paymentExpired req.reference req.expires)), [.send 0])
    ∧ hasExecPay (request cfg env mp true).2 = false := by
  have hD : doAttempt cfg env.now env.hasKeypair env.signFor mp true 0
      (env.transport 0) (env.transport 1) =
      (.fatal (.err (.paymentExpired req.reference req.expires)), [.send 0], 1) := by
    rw [h0]
    simp [doAttempt, hp, h402, hamt, hexp, gt_iff_lt]
  have h := request_first_fatal cfg env mp true _ _ _ hra hD
  refine ⟨h, ?_⟩
  rw [h]
  rfl

/-- Witness for C3 at a concrete expired challenge within the ceiling. -/
theorem c3_witness :
    request ⟨10, 3, 1⟩
        ⟨fun _ => .resp ⟨402, ⟨some (.num 5), some "SOL", some "R1", some "payX",
            some (.int 500), none, none⟩, .noText⟩,
          1000, true, fun _ => "sig0"⟩ none true =
      (.error (.err (.paymentExpired "payX" 500)), [.send 0]) :=
  (c3_expiry_check ⟨10, 3, 1⟩
    ⟨fun _ => .resp ⟨402, ⟨some (.num 5), some "SOL", some "R1", some "payX",
        some (.int 500), none, none⟩, .noText⟩, 1000, true, fun _ => "sig0"⟩
    none
    ⟨402, ⟨some (.num 5), some "SOL", some "R1", some "payX",
        some (.int 500), none, none⟩, .noText⟩
    ⟨5, "SOL", "R1", "payX", 500, none⟩
    (by norm_num) rfl rfl rfl
    (by norm_num [effectiveMaxPayment]) (by norm_num)).1

/-- C4 counterexample: the claim says the effective ceiling is the per-call
override whenever one is supplied. A supplied override of 0 is falsy in
Python (client.py line 86), so the code silently falls back to the
client-wide ceiling: with override 0 and requirement amount 5 > 0 the claim
predicts MaxPaymentExceeded, but the call proceeds past the ceiling check
(failing only later, on the missing keypair). -/
theorem c4_counterexample :
    request ⟨10, 3, 1⟩
        ⟨fun _ => .resp ⟨402, ⟨some (.num 5), some "SOL", some "R1", some "payX",
            some (.int 2000), none, none⟩, .noText⟩,
          1000, false, fun _ => "s"⟩ (some 0) true =
      (.error (.err (.x402 "Keypair required for automatic payments" "NO_KEYPAIR" none)),
       [.send 0])
    ∧ (5 : ℚ) > 0 := by
  constructor
  · rfl
  · norm_num

/-- C4 amended: with the effective ceiling being the per-call override when
supplied and nonzero (a supplied 0 is falsy and falls back to the
client-wide ceiling), every challenge whose requirement exceeds that
ceiling fails with MaxPaymentExceeded carrying the requested amount and the
limit, and the executor is never invoked. -/
theorem c4_ceiling_check (cfg : ClientCfg) (env : Env) (mp : Option ℚ)
    (r : HttpResp) (req : PaymentRequirement)
    (hra : 1 ≤ cfg.retryAttempts)
    (h0 : env.transport 0 = .resp r) (h402 : r.status = 402)
    (hp : parsePaymentRequirement r.headers = .ok req)
    (hamt : req.amount > effectiveMaxPayment cfg mp) :
    request cfg env mp true =
      (.error (.err (.maxPaymentExceeded req.amount (effectiveMaxPayment cfg mp))),
       [.send 0])
    ∧ hasExecPay (request cfg env mp true).2 = false := by
  have hD : doAttempt cfg env.now env.hasKeypair env.signFor mp true 0
      (env.transport 0) (env.transport 1) =
      (.fatal (.err (.maxPaymentExceeded req.amount (effectiveMaxPayment cfg mp))),
       [.send 0], 1) := by
    rw [h0]
    simp [doAttempt, hp, h402, hamt]
  have h := request_first_fatal cfg env mp true _ _ _ hra hD
  refine ⟨h, ?_⟩
  rw [h]
  rfl

/-- Witness for C4 at a concrete over-ceiling challenge with no override. -/
theorem c4_witness :
    request ⟨10, 3, 1⟩
        ⟨fun _ => .resp ⟨402, ⟨some (.num 20), some "SOL", some "R1", some "payX",
            some (.int 2000), none, none⟩, .noText⟩,
          1000, true, fun _ => "sig0"⟩ none true =
      (.error (.err (.maxPaymentExceeded 20 (effectiveMaxPayment ⟨10, 3, 1⟩ none))),
       [.send 0]) :=
  (c4_ceiling_check ⟨10, 3, 1⟩
    ⟨fun _ => .resp ⟨402, ⟨some (.num 20), some "SOL", some "R1", some "payX",
        some (.int 2000), none, none⟩, .noText⟩, 1000, true, fun _ => "sig0"⟩
    none
    ⟨402, ⟨some (.num 20), some "SOL", some "R1", some "payX",
        some (.int 2000), none, none⟩, .noText⟩
    ⟨20, "SOL", "R1", "payX", 2000, none⟩
    (by norm_num) rfl rfl rfl
    (by norm_num [effectiveMaxPayment])).1

/-- C8 counterexample: the claim says a valid, affordable, unexpired
challenge with no executor configured fails with the ConfigurationError
class carrying field NO_EXECUTOR. The code raises the plain X402Error base
class with code NO_KEYPAIR (client.py line 116); the ConfigurationError
class defined in errors.py is never used here. -/
theorem c8_counterexample :
    request ⟨10, 3, 1⟩
        ⟨fun _ => .resp ⟨402, ⟨some (.num 5), some "SOL", some "R1", some "payX",
            some (.int 2000), none, none⟩, .noText⟩,
          1000, false, fun _ => "s"⟩ none true =
      (.error (.err (.x402 "Keypair required for automatic payments" "NO_KEYPAIR" none)),
       [.send 0])
    ∧ isConfigErr
        (.err (.x402 "Keypair required for automatic payments" "NO_KEYPAIR" none)) =
      false := by
  constructor <;> rfl

/-- C8 amended: for every challenge that passes the ceiling and expiry
checks, if no signing keypair is configured the call fails — before any
payment is attempted — with the base X402Error carrying code NO_KEYPAIR and
message "Keypair required for automatic payments" (not with the
ConfigurationError class and a NO_EXECUTOR field). -/
theorem c8_no_keypair (cfg : ClientCfg) (env : Env) (mp : Option ℚ)
    (r : HttpResp) (req : PaymentRequirement)
    (hra : 1 ≤ cfg.retryAttempts)
    (h0 : env.transport 0 = .resp r) (h402 : r.status = 402)
    (hp : parsePaymentRequirement r.headers = .ok req)
    (hamt : ¬ req.amount > effectiveMaxPayment cfg mp)
    (hexp : ¬ (req.expires : ℚ) < env.now)
    (hkp : env.hasKeypair = false) :
    request cfg env mp true =
      (.error (.err (.x402 "Keypair required for automatic payments" "NO_KEYPAIR" none)),
       [.send 0])
    ∧ hasExecPay (request cfg env mp true).2 = false := by
  have hD : doAttempt cfg env.now env.hasKeypair env.signFor mp true 0
      (env.transport 0) (env.transport 1) =
      (.fatal (.err (.x402 "Keypair required for automatic payments" "NO_KEYPAIR" none)),
       [.send 0], 1) := by
    rw [h0]
    simp [doAttempt, hp, h402, hamt, hexp, gt_iff_lt, hkp]
  have h := request_first_fatal cfg env mp true _ _ _ hra hD
  refine ⟨h, ?_⟩
  rw [h]
  rfl

/-- Witness for C8 at a concrete valid challenge with no keypair set. -/
theorem c8_witness :
    request ⟨10, 3, 1⟩
        ⟨fun _ => .resp ⟨402, ⟨some (.num 4), some "SOL", some "R1", some "payY",
            some (.int 5000), none, none⟩, .noText⟩,
          1000, false, fun _ => "s"⟩ none true =
      (.error (.err (.x402 "Keypair required for automatic payments" "NO_KEYPAIR" none)),
       [.send 0]) :=
  (c8_no_keypair ⟨10, 3, 1⟩
    ⟨fun _ => .resp ⟨402, ⟨some (.num 4), some "SOL", some "R1", some "payY",
        some (.int 5000), none, none⟩, .noText⟩, 1000, false, fun _ => "s"⟩
    none
    ⟨402, ⟨some (.num 4), some "SOL", some "R1", some "payY",
        some (.int 5000), none, none⟩, .noText⟩
    ⟨4, "SOL", "R1", "payY", 5000, none⟩
    (by norm_num) rfl rfl rfl
    (by norm_num [effectiveMaxPayment]) (by norm_num) rfl).1

/-- C7 counterexample: the claim says a 429 always leads to a sleep and a
reissue, so a 429 followed by a success yields success. A 429 consumes a
loop slot (the continue on client.py line 157 re-checks attempts <
retry_attempts), so a 429 arriving on the final allowed attempt sleeps but
never reissues: with retry_attempts = 1 and a transport whose second answer
would be a success, the call fails with NetworkError(Max retry attempts
exceeded) and only one send ever happens. -/
theorem c7_counterexample :
    request ⟨10, 1, 1⟩
        ⟨fun i => if i = 0
            then .resp ⟨429, ⟨none, none, none, none, none, none, some (.int 2)⟩, .noText⟩
            else .resp ⟨200, ⟨none, none, none, none, none, none, none⟩, .noText⟩,
          1000, false, fun _ => "s"⟩ none true =
      (.error (.err (.network "Max retry attempts exceeded" none)),
       [.send 0, .sleep ((2 : ℤ) : ℚ)]) := by
  rfl

/-- C7 amended: every non-ok response with status 429 is classified as
RateLimited with retry-after taken from the Retry-After header (default 60
when absent) and limit from the body (default 0), regardless of body
content; on such a classification the engine sleeps the retry-after
duration and, when a further attempt remains within retryAttempts, reissues
the request, so a 429 followed by a successful response yields success
without RateLimited reaching the caller; a 429 on the final allowed attempt
sleeps but then fails instead of reissuing. -/
theorem c7_rate_limited (cfg : ClientCfg) (env : Env) (mp : Option ℚ)
    (autoSign : Bool) (r429 r2 : HttpResp) (ra : ℤ) :
    (∀ r : HttpResp, r.status = 429 →
       (r.headers.retryAfter = none →
          handleApiError r = .rateLimited 60 ((bodyDict r).limit.getD 0))
       ∧ (∀ n, r.headers.retryAfter = some (.int n) →
          handleApiError r = .rateLimited n ((bodyDict r).limit.getD 0)))
    ∧ (2 ≤ cfg.retryAttempts →
       env.transport 0 = .resp r429 → r429.status = 429 →
       r429.headers.retryAfter = some (.int ra) →
       env.transport 1 = .resp r2 → r2.status < 400 → r2.body ≠ .unparsable →
       request cfg env mp autoSign =
         (.ok ⟨successData r2.body, r2.status, r2.headers, none⟩,
          [.send 0, .sleep (ra : ℚ), .send 1])) := by
  constructor
  · intro r h429
    constructor
    · intro hnone
      simp [handleApiError, h429, hnone]
    · intro n hn
      simp [handleApiError, h429, hn]
  · intro hra h0 h429 hrah h1 hok hbody
    obtain ⟨n, hn⟩ : ∃ n, cfg.retryAttempts = n + 2 :=
      ⟨cfg.retryAttempts - 2, by omega⟩
    have hD1 : doAttempt cfg env.now env.hasKeypair env.signFor mp autoSign 0
        (env.transport 0) (env.transport 1) =
        (.rateHit ra, [.send 0], 1) := by
      rw [h0]
      simp [doAttempt, h429, HttpResp.ok, handleApiError, hrah]
    have h402 : r2.status ≠ 402 := by omega
    have hD2 : doAttempt cfg env.now env.hasKeypair env.signFor mp autoSign 1
        (env.transport 1) (env.transport 2) =
        (.success ⟨successData r2.body, r2.status, r2.headers, none⟩, [.send 1], 2) := by
      rw [h1]
      rcases hb : r2.body with _ | b | _
      · simp [doAttempt, h402, HttpResp.ok, hok, hb]
      · simp [doAttempt, h402, HttpResp.ok, hok, hb]
      · exact absurd hb hbody
    unfold request
    rw [hn]
    simp only [runLoop, hD1, hD2]
    rfl

/-- Witness for C7: a 429 carrying Retry-After 2 with a json body is
classified as RateLimited, and with three allowed attempts the engine sleeps
2 and reissues, returning the second response successfully. -/
theorem c7_witness :
    handleApiError ⟨429, ⟨none, none, none, none, none, none, some (.int 2)⟩,
        .jsonBody ⟨some "slow down", none, none, some 9⟩⟩ =
      .rateLimited 2 9
    ∧ request ⟨10, 3, 1⟩
        ⟨fun i => if i = 0
            then .resp ⟨429, ⟨none, none, none, none, none, none, some (.int 2)⟩, .noText⟩
            else .resp ⟨200, ⟨none, none, none, none, none, none, none⟩, .noText⟩,
          1000, false, fun _ => "s"⟩ none true =
      (.ok ⟨none, 200, ⟨none, none, none, none, none, none, none⟩, none⟩,
       [.send 0, .sleep ((2 : ℤ) : ℚ), .send 1]) := by
  constructor
  · exact ((c7_rate_limited ⟨10, 3, 1⟩
      ⟨fun _ => .resp ⟨200, ⟨none, none, none, none, none, none, none⟩, .noText⟩,
        0, false, fun _ => "s"⟩ none true
      ⟨429, ⟨none, none, none, none, none, none, some (.int 2)⟩, .noText⟩
      ⟨200, ⟨none, none, none, none, none, none, none⟩, .noText⟩ 2).1
      ⟨429, ⟨none, none, none, none, none, none, some (.int 2)⟩,
        .jsonBody ⟨some "slow down", none, none, some 9⟩⟩ rfl).2 2 rfl
  · exact (c7_rate_limited ⟨10, 3, 1⟩
      ⟨fun i => if i = 0
          then .resp ⟨429, ⟨none, none, none, none, none, none, some (.int 2)⟩, .noText⟩
          else .resp ⟨200, ⟨none, none, none, none, none, none, none⟩, .noText⟩,
        1000, false, fun _ => "s"⟩ none true
      ⟨429, ⟨none, none, none, none, none, none, some (.int 2)⟩, .noText⟩
      ⟨200, ⟨none, none, none, none, none, none, none⟩, .noText⟩ 2).2
      (by norm_num) rfl rfl rfl rfl (by norm_num) (by decide)

/-- Skipping j initial generic-transport failures: if the j-th send (0-based,
offset idx) returns an ok, non-challenge, decodable response while every
earlier one raised a generic RequestException, the loop returns that
response's success outcome, each failed attempt being followed by its linear
backoff sleep. -/
theorem runLoop_exc_then_success (cfg : ClientCfg) (env : Env) (mp : Option ℚ)
    (autoSign : Bool) (r : HttpResp) (hok : r.status < 400)
    (hbody : r.body ≠ .unparsable) :
    ∀ (j rem idx a0 : ℕ) (lastErr : Option ℕ),
      j < rem →
      (∀ i, i < j → ∃ e, env.transport (idx + i) = .exc e) →
      env.transport (idx + j) = .resp r →
      runLoop cfg env mp autoSign rem a0 idx lastErr =
        (.ok ⟨successData r.body, r.status, r.headers, none⟩,
         excTraceFrom cfg.retryDelay j idx a0 ++ [.send (idx + j)]) := by
  intro j
  induction j with
  | zero =>
    intro rem idx a0 lastErr hlt hexc htr
    obtain ⟨m, rfl⟩ : ∃ m, rem = m + 1 := ⟨rem - 1, by omega⟩
    rw [Nat.add_zero] at htr
    have h402 : r.status ≠ 402 := by omega
    have hD : doAttempt cfg env.now env.hasKeypair env.signFor mp autoSign idx
        (env.transport idx) (env.transport (idx + 1)) =
        (.success ⟨successData r.body, r.status, r.headers, none⟩, [.send idx], idx + 1) := by
      rw [htr]
      rcases hb : r.body with _ | b | _
      · simp [doAttempt, h402, HttpResp.ok, hok, hb]
      · simp [doAttempt, h402, HttpResp.ok, hok, hb]
      · exact absurd hb hbody
    simp only [runLoop, hD]
    simp [excTraceFrom]
  | succ j ih =>
    intro rem idx a0 lastErr hlt hexc htr
    obtain ⟨m, rfl⟩ : ∃ m, rem = m + 1 := ⟨rem - 1, by omega⟩
    obtain ⟨e0, he0⟩ := hexc 0 (by omega)
    rw [Nat.add_zero] at he0
    have hD : doAttempt cfg env.now env.hasKeypair env.signFor mp autoSign idx
        (env.transport idx) (env.transport (idx + 1)) =
        (.reqExc e0, [.send idx], idx + 1) := by
      rw [he0]
      rfl
    have hm : ¬ m = 0 := by omega
    have ih' := ih m (idx + 1) (a0 + 1) (some e0) (by omega)
      (fun i hi => by
        obtain ⟨e, he⟩ := hexc (i + 1) (by omega)
        exact ⟨e, by rw [show idx + 1 + i = idx + (i + 1) by omega]; exact he⟩)
      (by rw [show idx + 1 + j = idx + (j + 1) by omega]; exact htr)
    rw [show idx + 1 + j = idx + (j + 1) by omega] at ih'
    conv_lhs => rw [runLoop]
    simp only [hD]
    rw [if_neg hm, ih']
    simp [excTraceFrom]

/-- Exhausting every attempt on generic transport failures: when all
retry-slots raise generic RequestExceptions, the loop fails with
NetworkError wrapping the last exception, the last attempt getting no
backoff sleep. -/
theorem runLoop_all_exc (cfg : ClientCfg) (env : Env) (mp : Option ℚ)
    (autoSign : Bool) :
    ∀ (rem idx a0 : ℕ) (lastErr : Option ℕ) (eL : ℕ),
      1 ≤ rem →
      (∀ i, i + 1 < rem → ∃ e, env.transport (idx + i) = .exc e) →
      env.transport (idx + (rem - 1)) = .exc eL →
      runLoop cfg env mp autoSign rem a0 idx lastErr =
        (.error (.err (.network "Network request failed" (some eL))),
         excTraceFrom cfg.retryDelay (rem - 1) idx a0 ++ [.send (idx + (rem - 1))]) := by
  intro rem
  induction rem with
  | zero =>
    intro idx a0 lastErr eL h1
    exact absurd h1 (by omega)
  | succ m ih =>
    intro idx a0 lastErr eL h1 hexc htr
    rcases m with _ | k
    · -- one single attempt
      simp only [Nat.zero_add, Nat.sub_self, Nat.add_zero] at htr ⊢
      have hD : doAttempt cfg env.now env.hasKeypair env.signFor mp autoSign idx
          (env.transport idx) (env.transport (idx + 1)) =
          (.reqExc eL, [.send idx], idx + 1) := by
        rw [htr]
        rfl
      simp only [runLoop, hD]
      simp [excTraceFrom]
    · -- at least two attempts remain
      simp only [Nat.add_sub_cancel] at htr ⊢
      obtain ⟨e0, he0⟩ := hexc 0 (by omega)
      rw [Nat.add_zero] at he0
      have hD : doAttempt cfg env.now env.hasKeypair env.signFor mp autoSign idx
          (env.transport idx) (env.transport (idx + 1)) =
          (.reqExc e0, [.send idx], idx + 1) := by
        rw [he0]
        rfl
      have ih' := ih (idx + 1) (a0 + 1) (some e0) eL (by omega)
        (fun i hi => by
          obtain ⟨e, he⟩ := hexc (i + 1) (by omega)
          exact ⟨e, by rw [show idx + 1 + i = idx + (i + 1) by omega]; exact he⟩)
        (by simp only [Nat.add_sub_cancel]
            rw [show idx + 1 + k = idx + (k + 1) by omega]
            exact htr)
      simp only [Nat.add_sub_cancel] at ih'
      rw [show idx + 1 + k = idx + (k + 1) by omega] at ih'
      have hk : ¬ (k + 1) = 0 := by omega
      conv_lhs => rw [runLoop]
      simp only [hD]
      rw [if_neg hk, ih']
      simp [excTraceFrom]

/-- C6: for the initial (pre-challenge) send, a generic non-timeout transport
exception is retried up to retryAttempts total tries with a sleep of
retryDelay * attemptNumber after each failed attempt; if the transport
produces an (ok, decodable) response on an attempt within the bound, the
call succeeds with that response; if every attempt fails with a generic
transport exception, the call fails with NetworkError wrapping the last
transport error. -/
theorem c6_transport_retry (cfg : ClientCfg) (env : Env) (mp : Option ℚ)
    (autoSign : Bool) :
    (∀ eL, 1 ≤ cfg.retryAttempts →
       (∀ i, i + 1 < cfg.retryAttempts → ∃ e, env.transport i = .exc e) →
       env.transport (cfg.retryAttempts - 1) = .exc eL →
       request cfg env mp autoSign =
         (.error (.err (.network "Network request failed" (some eL))),
          excTraceFrom cfg.retryDelay (cfg.retryAttempts - 1) 0 0
            ++ [.send (cfg.retryAttempts - 1)]))
    ∧ (∀ j (r : HttpResp), j < cfg.retryAttempts → r.status < 400 →
       r.body ≠ .unparsable →
       (∀ i, i < j → ∃ e, env.transport i = .exc e) →
       env.transport j = .resp r →
       request cfg env mp autoSign =
         (.ok ⟨successData r.body, r.status, r.headers, none⟩,
          excTraceFrom cfg.retryDelay j 0 0 ++ [.send j])) := by
  constructor
  · intro eL h1 hexc htr
    have h := runLoop_all_exc cfg env mp autoSign cfg.retryAttempts 0 0 none eL h1
      (fun i hi => by simpa using hexc i hi)
      (by simpa using htr)
    simpa [request] using h
  · intro j r hlt hok hbody hexc htr
    have h := runLoop_exc_then_success cfg env mp autoSign r hok hbody j
      cfg.retryAttempts 0 0 none hlt
      (fun i hi => by simpa using hexc i hi)
      (by simpa using htr)
    simpa [request] using h

/-- Witness for C6: three configured attempts all raising generic transport
errors end in NetworkError wrapping the last one after two backoff sleeps;
and with two attempts where the first raises and the second returns 200, the
call succeeds. -/
theorem c6_witness :
    request ⟨10, 3, 1⟩ ⟨fun _ => .exc 7, 0, false, fun _ => "s"⟩ none true =
      (.error (.err (.network "Network request failed" (some 7))),
       excTraceFrom 1 2 0 0 ++ [.send 2])
    ∧ request ⟨10, 2, 1⟩
        ⟨fun i => if i < 1 then .exc 5
          else .resp ⟨200, ⟨none, none, none, none, none, none, none⟩, .noText⟩,
          0, false, fun _ => "s"⟩ none true =
      (.ok ⟨none, 200, ⟨none, none, none, none, none, none, none⟩, none⟩,
       excTraceFrom 1 1 0 0 ++ [.send 1]) := by
  constructor
  · exact (c6_transport_retry ⟨10, 3, 1⟩ ⟨fun _ => .exc 7, 0, false, fun _ => "s"⟩
      none true).1 7 (by norm_num) (fun i _ => ⟨7, rfl⟩) rfl
  · exact (c6_transport_retry ⟨10, 2, 1⟩
      ⟨fun i => if i < 1 then .exc 5
        else .resp ⟨200, ⟨none, none, none, none, none, none, none⟩, .noText⟩,
        0, false, fun _ => "s"⟩ none true).2 1
      ⟨200, ⟨none, none, none, none, none, none, none⟩, .noText⟩
      (by norm_num) (by norm_num) (by decide)
      (fun i hi => ⟨5, by simp [hi]⟩) rfl

end X402
